import Mathlib

/-!
Verification of the gtfstk repository's trip/route statistics engine.

The development shallowly embeds the relevant functions of `src/feed.py`
(the older, monolithic `Feed` class) and `src/gtfstk/trips.py` (the newer
module-level functions) as executable Lean definitions, and proves the
specification claims about them.

Conventions used throughout:
- Python strings are Lean `String`s; the character-level codecs work on
  `List Char` and are wrapped into `String` versions.
- Machine integers are `Int`/`Nat`; Python `divmod` is `Int.ediv`/`Int.emod`
  (both floor for a positive modulus, like Python).
- Fallible code returns `Option`: `none` models a Python computation that
  does not produce a normal DataFrame/value (an uncaught exception), while
  functions that deliberately return Python `None` are documented at their
  definition.
- pandas `NaN` cells are `Option` values (`none` = missing).
-/

namespace Gtfs

/-! ## Time codec (src/feed.py, `seconds_to_timestr`)

`seconds_to_timestr(seconds)` formats integer seconds as `'{:02d}:{:02d}:{:02d}'`
using `divmod`; with `inverse=True` it splits on `':'` into exactly three
fields, converts each with `int`, and combines; any failure is caught and
mapped to `None`.
-/

/-- Decimal digit characters of a natural number, most significant first,
prepended to `acc`, with explicit fuel so that the definition is structural
and reduces definitionally; models the digit production of Python's
`'{:d}'.format`. -/
def natToDigitsAux : ℕ → ℕ → List Char → List Char
  | 0, _, acc => acc
  | fuel + 1, n, acc =>
    let acc' := Nat.digitChar (n % 10) :: acc
    if n < 10 then acc' else natToDigitsAux fuel (n / 10) acc'

/-- Decimal representation of a natural number, as Python `str` produces it
(`n + 1` is always enough fuel since the argument strictly shrinks). -/
def natToDigits (n : ℕ) : List Char :=
  natToDigitsAux (n + 1) n []

/-- The field formatter `'{:02d}'` for a nonnegative value: zero-padded to
at least two characters. -/
def pad2 (n : ℕ) : List Char :=
  if n < 10 then ['0', Nat.digitChar n] else natToDigits n

/-- The field formatter `'{:02d}'` for a possibly negative value: Python puts
the sign inside the width, so `-5` formats as `"-5"`. -/
def intPad2 (z : ℤ) : List Char :=
  if z < 0 then '-' :: natToDigits z.natAbs else pad2 z.toNat

/-- Python's `str.split(':')` on a character list. -/
def splitColon : List Char → List (List Char)
  | [] => [[]]
  | c :: rest =>
    if c = ':' then [] :: splitColon rest
    else
      match splitColon rest with
      | [] => [[c]]
      | f :: fs => (c :: f) :: fs

/-- Parse an unsigned decimal digit string, as Python `int` does for a string
of digits; `none` on the empty string or any non-digit character
(Python raises `ValueError` there). -/
def parseNatDigits (l : List Char) : Option ℕ :=
  if l ≠ [] ∧ l.all (·.isDigit) then
    some (l.foldl (fun a c => 10 * a + (c.toNat - 48)) 0)
  else none

/-- Python's `int` on a string: an optional sign followed by digits.
(Surrounding whitespace, also accepted by Python's `int`, is not modelled;
no claim exercises it.) -/
def pyInt (l : List Char) : Option ℤ :=
  match l with
  | [] => none
  | c :: rest =>
    if c = '-' then
      match parseNatDigits rest with
      | some n => some (-(n : ℤ))
      | none => none
    else if c = '+' then
      match parseNatDigits rest with
      | some n => some ((n : ℤ))
      | none => none
    else
      match parseNatDigits (c :: rest) with
      | some n => some ((n : ℤ))
      | none => none

/-- `seconds_to_timestr(_, inverse=True)` of src/feed.py on the characters of
the input: split on `':'` into exactly three fields, `int` each field, and
return `hours*3600 + mins*60 + seconds`; `none` models the caught exception
(the Python function returns `None`). -/
def timestrToSecondsL (l : List Char) : Option ℤ :=
  match splitColon l with
  | [h, m, s] =>
    match pyInt h, pyInt m, pyInt s with
    | some hv, some mv, some sv => some (hv * 3600 + mv * 60 + sv)
    | _, _, _ => none
  | _ => none

/-- `seconds_to_timestr(seconds)` of src/feed.py (forward direction):
`hours, remainder = divmod(seconds, 3600)`, `mins, secs = divmod(remainder, 60)`,
formatted `'{:02d}:{:02d}:{:02d}'`. -/
def secondsToTimestrL (n : ℤ) : List Char :=
  let hours := n / 3600
  let rem := (n % 3600).toNat
  intPad2 hours ++ ':' :: (pad2 (rem / 60) ++ ':' :: pad2 (rem % 60))

/-- String wrapper for the inverse direction of `seconds_to_timestr`. -/
def timestr_to_seconds (s : String) : Option ℤ :=
  timestrToSecondsL s.data

/-- String wrapper for the forward direction of `seconds_to_timestr`. -/
def seconds_to_timestr (n : ℤ) : String :=
  String.mk (secondsToTimestrL n)

/-- The canonical well-formed time string `HH:MM:SS` built from components. -/
def mkTimeStrL (h m s : ℕ) : List Char :=
  pad2 h ++ ':' :: (pad2 m ++ ':' :: pad2 s)

/-- String version of `mkTimeStrL`. -/
def mkTimeStr (h m s : ℕ) : String :=
  String.mk (mkTimeStrL h m s)

/-- A well-formed time string for the round-trip law: zero-padded two-digit
fields with in-range minutes and seconds and hour below 48. -/
def wellFormedTimeStr (str : String) : Prop :=
  ∃ h m s : ℕ, h < 48 ∧ m < 60 ∧ s < 60 ∧ str = mkTimeStr h m s

/-- Modelled from the spec: `seconds_from_timestring(s) -> int` parses
`H:MM:SS` with `H` unbounded and nonnegative and "fails with `ParseError` on
malformed input".  The helpers module whose `timestr_to_seconds` is imported
by `src/gtfstk/trips.py` is not under `src/`, so the spec's raising behavior
is rendered here as an `Except`, for comparison with the source's
`seconds_to_timestr(_, inverse=True)`. -/
def seconds_from_timestring_spec (s : String) : Except String ℤ :=
  match splitColon s.data with
  | [h, m, sec] =>
    match parseNatDigits h, parseNatDigits m, parseNatDigits sec with
    | some hv, some mv, some sv => .ok ((hv : ℤ) * 3600 + (mv : ℤ) * 60 + (sv : ℤ))
    | _, _, _ => .error "ParseError"
  | _ => .error "ParseError"

/-! ### Codec lemmas -/

lemma digitChar_isDigit {k : ℕ} (hk : k < 10) : (Nat.digitChar k).isDigit = true := by
  interval_cases k <;> decide

lemma digitChar_toNat {k : ℕ} (hk : k < 10) : (Nat.digitChar k).toNat = 48 + k := by
  interval_cases k <;> decide

lemma isDigit_ne_special {c : Char} (h : c.isDigit = true) :
    c ≠ ':' ∧ c ≠ '-' ∧ c ≠ '+' := by
  refine ⟨?_, ?_, ?_⟩ <;> rintro rfl <;> exact absurd h (by decide)

lemma pad2_lt10 {n : ℕ} (h : n < 10) : pad2 n = ['0', Nat.digitChar n] := by
  simp [pad2, h]

lemma pad2_two_digits {n : ℕ} (h10 : 10 ≤ n) (h100 : n < 100) :
    pad2 n = [Nat.digitChar (n / 10), Nat.digitChar (n % 10)] := by
  obtain ⟨f, rfl⟩ : ∃ f, n = f + 1 := ⟨n - 1, by omega⟩
  have hd : (f + 1) / 10 < 10 := by omega
  simp only [pad2, if_neg (by omega : ¬ f + 1 < 10), natToDigits, natToDigitsAux,
    if_neg (by omega : ¬ f + 1 < 10)]
  obtain ⟨g, hg⟩ : ∃ g, f = g + 1 := ⟨f - 1, by omega⟩
  rw [hg]
  simp only [natToDigitsAux, if_pos (by omega : (g + 1 + 1) / 10 < 10)]
  rw [← hg, Nat.mod_eq_of_lt hd]

lemma pad2_digits {n : ℕ} (h : n < 100) : ∀ c ∈ pad2 n, c.isDigit = true := by
  rcases Nat.lt_or_ge n 10 with hn | hn
  · rw [pad2_lt10 hn]
    intro c hc
    rcases List.mem_cons.mp hc with rfl | hc
    · decide
    · rw [List.mem_singleton.mp hc]
      exact digitChar_isDigit hn
  · rw [pad2_two_digits hn h]
    intro c hc
    rcases List.mem_cons.mp hc with rfl | hc
    · exact digitChar_isDigit (by omega)
    · rw [List.mem_singleton.mp hc]
      exact digitChar_isDigit (by omega)

lemma splitColon_no_colon {l : List Char} (h : ∀ c ∈ l, c ≠ ':') :
    splitColon l = [l] := by
  induction l with
  | nil => rfl
  | cons c rest ih =>
    have hc : c ≠ ':' := h c (by simp)
    have := ih (fun x hx => h x (by simp [hx]))
    simp [splitColon, hc, this]

lemma splitColon_append {l r : List Char} (h : ∀ c ∈ l, c ≠ ':') :
    splitColon (l ++ ':' :: r) = l :: splitColon r := by
  induction l with
  | nil => simp [splitColon]
  | cons c rest ih =>
    have hc : c ≠ ':' := h c (by simp)
    have hr := ih (fun x hx => h x (by simp [hx]))
    simp only [List.cons_append, splitColon, if_neg hc, List.append_eq, hr]

lemma splitColon_mkTimeStrL {hl : List Char} (hdig : ∀ c ∈ hl, c.isDigit = true)
    {m s : ℕ} (hm : m < 100) (hs : s < 100) :
    splitColon (hl ++ ':' :: (pad2 m ++ ':' :: pad2 s)) = [hl, pad2 m, pad2 s] := by
  have hne : ∀ c ∈ hl, c ≠ ':' := fun c hc => (isDigit_ne_special (hdig c hc)).1
  have hmne : ∀ c ∈ pad2 m, c ≠ ':' :=
    fun c hc => (isDigit_ne_special (pad2_digits hm c hc)).1
  have hsne : ∀ c ∈ pad2 s, c ≠ ':' :=
    fun c hc => (isDigit_ne_special (pad2_digits hs c hc)).1
  rw [splitColon_append hne, splitColon_append hmne, splitColon_no_colon hsne]

lemma parseNatDigits_pad2 {n : ℕ} (h : n < 100) : parseNatDigits (pad2 n) = some n := by
  rcases Nat.lt_or_ge n 10 with hn | hn
  · rw [pad2_lt10 hn]
    rw [parseNatDigits, if_pos ⟨by simp, by simp [List.all_cons, digitChar_isDigit hn]⟩]
    simp [List.foldl, digitChar_toNat hn]
  · rw [pad2_two_digits hn h]
    have h1 : n / 10 < 10 := by omega
    have h2 : n % 10 < 10 := by omega
    rw [parseNatDigits,
      if_pos ⟨by simp, by simp [List.all_cons, digitChar_isDigit h1, digitChar_isDigit h2]⟩]
    simp only [List.foldl, digitChar_toNat h1, digitChar_toNat h2, Option.some.injEq]
    omega

lemma pyInt_of_digits {l : List Char} {v : ℕ} (h : parseNatDigits l = some v) :
    pyInt l = some (v : ℤ) := by
  have hcond : l ≠ [] ∧ l.all (·.isDigit) := by
    by_contra hc
    rw [parseNatDigits, if_neg hc] at h
    exact Option.noConfusion h
  obtain ⟨hne, hall⟩ := hcond
  rcases l with - | ⟨c, rest⟩
  · exact absurd rfl hne
  · have hc : c.isDigit = true := by
      have := List.all_eq_true.mp hall c (by simp)
      simpa using this
    obtain ⟨-, hminus, hplus⟩ := isDigit_ne_special hc
    rw [pyInt, if_neg hminus, if_neg hplus, h]

lemma timestrToSecondsL_fields {hl : List Char} {hv : ℕ}
    (hparse : parseNatDigits hl = some hv) {m s : ℕ} (hm : m < 100) (hs : s < 100) :
    timestrToSecondsL (hl ++ ':' :: (pad2 m ++ ':' :: pad2 s))
      = some ((hv : ℤ) * 3600 + (m : ℤ) * 60 + (s : ℤ)) := by
  have hdig : ∀ c ∈ hl, c.isDigit = true := by
    have hcond : hl ≠ [] ∧ hl.all (·.isDigit) := by
      by_contra hc
      rw [parseNatDigits, if_neg hc] at hparse
      exact Option.noConfusion hparse
    intro c hc
    have := List.all_eq_true.mp hcond.2 c hc
    simpa using this
  have h1 := pyInt_of_digits hparse
  have h2 := pyInt_of_digits (parseNatDigits_pad2 hm)
  have h3 := pyInt_of_digits (parseNatDigits_pad2 hs)
  simp [timestrToSecondsL, splitColon_mkTimeStrL hdig hm hs, h1, h2, h3]

lemma timestrToSecondsL_mk {h m s : ℕ} (hh : h < 100) (hm : m < 100) (hs : s < 100) :
    timestrToSecondsL (mkTimeStrL h m s)
      = some ((h : ℤ) * 3600 + (m : ℤ) * 60 + (s : ℤ)) := by
  exact timestrToSecondsL_fields (parseNatDigits_pad2 hh) hm hs

lemma secondsToTimestrL_mk {h m s : ℕ} (hh : h < 100) (hm : m < 60) (hs : s < 60) :
    secondsToTimestrL ((h : ℤ) * 3600 + (m : ℤ) * 60 + (s : ℤ)) = mkTimeStrL h m s := by
  have hhours : ((h : ℤ) * 3600 + (m : ℤ) * 60 + (s : ℤ)) / 3600 = (h : ℤ) := by omega
  have hrem : (((h : ℤ) * 3600 + (m : ℤ) * 60 + (s : ℤ)) % 3600).toNat = 60 * m + s := by
    omega
  rw [secondsToTimestrL, hhours, hrem]
  have h1 : (60 * m + s) / 60 = m := by omega
  have h2 : (60 * m + s) % 60 = s := by omega
  rw [h1, h2, intPad2, if_neg (by omega : ¬ (h : ℤ) < 0)]
  simp [mkTimeStrL]

/-! ### Claim C3: round-trip of the time codec -/

/-- C3: for every well-formed time string (two-digit zero-padded fields,
minutes and seconds below 60, hour below 48), converting to seconds past
midnight with `seconds_to_timestr(_, inverse=True)` and back with
`seconds_to_timestr` returns the original string. -/
theorem timestr_roundtrip (str : String) (h : wellFormedTimeStr str) :
    (timestr_to_seconds str).map seconds_to_timestr = some str := by
  obtain ⟨h, m, s, hh, hm, hs, rfl⟩ := h
  show (timestrToSecondsL (mkTimeStrL h m s)).map seconds_to_timestr = _
  rw [timestrToSecondsL_mk (by omega) (by omega) (by omega), Option.map_some']
  rw [seconds_to_timestr, secondsToTimestrL_mk (by omega) hm hs, mkTimeStr]

/-- Witness for C3 at the concrete well-formed string "07:30:05". -/
theorem timestr_roundtrip_witness :
    wellFormedTimeStr "07:30:05" ∧
      (timestr_to_seconds "07:30:05").map seconds_to_timestr = some "07:30:05" := by
  have hwf : wellFormedTimeStr "07:30:05" :=
    ⟨7, 30, 5, by omega, by omega, by omega, rfl⟩
  exact ⟨hwf, timestr_roundtrip "07:30:05" hwf⟩

/-! ### Claim C9: parse failure handling of the time codec -/

/-- C9 counterexample: on the malformed input "1x:00:00" the spec-modelled
parser fails with a `ParseError`, but the source's
`seconds_to_timestr(_, inverse=True)` catches every parse failure and returns
the null value `None` — it raises nothing and offers no configuration. -/
theorem timestr_parse_no_raise :
    seconds_from_timestring_spec "1x:00:00" = .error "ParseError" ∧
      timestr_to_seconds "1x:00:00" = none := by
  constructor <;> rfl

/-- C9 amended: for well-formed `H:MM:SS` input with any nonnegative digit
string `H`, the parse returns `H*3600 + MM*60 + SS`; on a string without
exactly three colon-separated fields, or with a field `int` cannot parse, it
returns `None` (never an exception). -/
theorem timestr_parse_spec :
    (∀ (hl : List Char) (hv m s : ℕ), parseNatDigits hl = some hv → m < 60 → s < 60 →
        timestr_to_seconds (String.mk (hl ++ ':' :: (pad2 m ++ ':' :: pad2 s)))
          = some ((hv : ℤ) * 3600 + (m : ℤ) * 60 + (s : ℤ))) ∧
    (∀ str : String, (splitColon str.data).length ≠ 3 → timestr_to_seconds str = none) ∧
    (∀ (str : String) (a b c : List Char), splitColon str.data = [a, b, c] →
        pyInt a = none ∨ pyInt b = none ∨ pyInt c = none →
        timestr_to_seconds str = none) := by
  refine ⟨?_, ?_, ?_⟩
  · intro hl hv m s hparse hm hs
    show timestrToSecondsL _ = _
    exact timestrToSecondsL_fields hparse (by omega) (by omega)
  · intro str hlen
    show timestrToSecondsL str.data = none
    rw [timestrToSecondsL]
    rcases hsp : splitColon str.data with - | ⟨a, - | ⟨b, - | ⟨c, - | ⟨d, l⟩⟩⟩⟩ <;>
      first
        | rfl
        | (exact absurd (by rw [hsp]; rfl) hlen)
  · intro str a b c hsp hnone
    show timestrToSecondsL str.data = none
    rw [timestrToSecondsL, hsp]
    show (match pyInt a, pyInt b, pyInt c with
      | some hv, some mv, some sv => some (hv * 3600 + mv * 60 + sv)
      | _, _, _ => none) = (none : Option ℤ)
    split
    · rename_i hva hvb hvc
      rcases hnone with hn | hn | hn <;> simp_all
    · rfl

/-- Witness for C9 amended: a three-digit hour parses; a two-field string and
a string with a non-numeric field both yield `None`. -/
theorem timestr_parse_spec_witness :
    timestr_to_seconds "123:00:00" = some 442800 ∧
      timestr_to_seconds "1:2" = none ∧ timestr_to_seconds "1x:00:00" = none := by
  refine ⟨?_, ?_, ?_⟩
  · have := timestr_parse_spec.1 ['1', '2', '3'] 123 0 0 (by decide)
      (by omega) (by omega)
    simpa using this
  · exact timestr_parse_spec.2.1 "1:2" (by decide)
  · exact timestr_parse_spec.2.2 "1x:00:00" ['1', 'x'] ['0', '0'] ['0', '0']
      (by decide) (Or.inl (by decide))

/-! ## Geometry (shapely collaborator and src/feed.py `get_segment_length`,
src/gtfstk/trips.py `compute_trip_stats` distance policy) -/

/-- A planar point (projected coordinates), as handed to shapely. -/
abbrev Point : Type := ℚ × ℚ

/-- Abstract model of a shapely `LineString` as the source uses it: its
`length`, its `is_simple` flag, and its `project` method.  The proof fields
record shapely's documented contract that `project` returns the distance
along the linestring of the nearest point, a value in `[0, length]`. -/
structure LineString where
  length : ℚ
  isSimple : Bool
  project : Point → ℚ
  length_nonneg : 0 ≤ length
  project_nonneg : ∀ p, 0 ≤ project p
  project_le_length : ∀ p, project p ≤ length

/-- `get_segment_length(linestring, p, q=None)` of src/feed.py: project the
point(s) onto the linestring; with `q` given return the absolute difference
of the two projected distances, otherwise the projected distance of `p`
from the start of the linestring. -/
def get_segment_length (linestring : LineString) (p : Point) (q : Option Point) : ℚ :=
  let d_p := linestring.project p
  match q with
  | some q2 => |d_p - linestring.project q2|
  | none => d_p

/-- One stop-time row of the merged frame in `compute_trip_stats`
(src/gtfstk/trips.py); only the columns the distance computation reads. -/
structure StopTimeEntry where
  stop_id : String
  shape_dist_traveled : Option ℚ

/-- The stop-time group of one trip inside `compute_trip_stats`, rows in
`stop_sequence` order; `shape_id` is `none` when the trips table has NaN
there. -/
structure TripGroup where
  trip_id : String
  shape_id : Option String
  stop_times : List StopTimeEntry

/-- `compute_dist(group)` of src/gtfstk/trips.py (inside `compute_trip_stats`):
look up the trip's linestring (`KeyError` gives NaN), return its full length
when it is not simple, otherwise project the first and last stops and return
`d2 - d1` when that lies strictly between 0 and length + 100, else the full
length; a failed stop-geometry lookup also falls back to the full length. -/
def compute_dist (geometry_by_shape : String → Option LineString)
    (geometry_by_stop : String → Option Point) (group : TripGroup) : Option ℚ :=
  match group.shape_id.bind geometry_by_shape with
  | none => none
  | some linestring =>
    let D := linestring.length
    if linestring.isSimple = false then some D
    else
      match group.stop_times with
      | [] => none
      | st0 :: rest =>
        let start_stop := st0.stop_id
        let end_stop := ((rest.getLast?).getD st0).stop_id
        match geometry_by_stop start_stop, geometry_by_stop end_stop with
        | some start_point, some end_point =>
          let d1 := linestring.project start_point
          let d2 := linestring.project end_point
          let d := d2 - d1
          if 0 < d ∧ d < D + 100 then some d else some D
        | _, _ => some D

/-- Modelled from the spec: `hp.is_not_null(f, col)` of the helpers module
(not under src/) holds when the column has at least one non-null value. -/
def is_not_null_sdt (f : List TripGroup) : Bool :=
  f.any fun g => g.stop_times.any fun st => st.shape_dist_traveled.isSome

/-- pandas `group['shape_dist_traveled'].max()`: the maximum over the
non-null values of the group's column, NaN when every value is null. -/
def maxSdt (g : TripGroup) : Option ℚ :=
  match g.stop_times.filterMap (fun st => st.shape_dist_traveled) with
  | [] => none
  | v :: vs => some (vs.foldl max v)

/-- The distance column of `compute_trip_stats` (src/gtfstk/trips.py):
tier 1 uses `max(shape_dist_traveled)` per trip when the merged frame has a
usable column and geometry was not forced; tier 2 maps `compute_dist` over
the groups and converts from meters (`m_to_dist`); tier 3 (`feed.shapes is
None`) fills NaN. -/
def tripDistances (shapes : Option (String → Option LineString))
    (geometry_by_stop : String → Option Point) (m_to_dist : ℚ → ℚ)
    (compute_dist_from_shapes : Bool) (f : List TripGroup) : List (Option ℚ) :=
  if is_not_null_sdt f = true ∧ compute_dist_from_shapes = false then
    f.map maxSdt
  else
    match shapes with
    | some geometry_by_shape =>
      f.map fun g => (compute_dist geometry_by_shape geometry_by_stop g).map m_to_dist
    | none => f.map fun _ => none

/-! ### Claim C10: `get_segment_length` is non-negative -/

/-- C10: `get_segment_length` returns the absolute difference of the two
projected distances when `q` is given, the projected distance of `p` when it
is not, and is never negative — also when the projection of `q` precedes the
projection of `p` along the linestring. -/
theorem get_segment_length_nonneg (L : LineString) (p : Point) (q : Option Point) :
    0 ≤ get_segment_length L p q ∧
      (∀ q2 : Point, get_segment_length L p (some q2) = |L.project p - L.project q2|) ∧
      get_segment_length L p none = L.project p := by
  refine ⟨?_, fun q2 => rfl, rfl⟩
  cases q with
  | none => exact L.project_nonneg p
  | some q2 => exact abs_nonneg _

/-! ### Claim C2: the three-tier distance policy of `compute_trip_stats` -/

/-- A concrete self-intersecting linestring of length 10 whose projections
send `(0,0)` to 1 and every other point to 5. -/
def exLineC2 : LineString where
  length := 10
  isSimple := false
  project := fun p => if p = ((0 : ℚ), (0 : ℚ)) then 1 else 5
  length_nonneg := by norm_num
  project_nonneg := by intro p; dsimp only; split <;> norm_num
  project_le_length := by intro p; dsimp only; split <;> norm_num

/-- Shape table holding only `exLineC2` under shape id "sh". -/
def exShapesC2 : String → Option LineString :=
  fun sid => if sid = "sh" then some exLineC2 else none

/-- Stop geometry table for the C2 counterexample. -/
def exStopsC2 : String → Option Point :=
  fun stop => if stop = "A" then some ((0 : ℚ), (0 : ℚ))
    else if stop = "B" then some ((0 : ℚ), (1 : ℚ)) else none

/-- A trip from stop "A" to stop "B" along shape "sh", without recorded
`shape_dist_traveled` values. -/
def exGroupC2 : TripGroup :=
  ⟨"t1", some "sh", [⟨"A", none⟩, ⟨"B", none⟩]⟩

/-- C2 counterexample: for a self-intersecting (non-simple) linestring the
code returns the full linestring length 10, although the projection
difference is 4, which lies strictly between 0 and length + 100, so the
claim's tier 2 formula predicts 4. -/
theorem compute_dist_not_projection_difference :
    compute_dist exShapesC2 exStopsC2 exGroupC2 = some 10 ∧
      exLineC2.project ((0 : ℚ), (1 : ℚ)) - exLineC2.project ((0 : ℚ), (0 : ℚ)) = 4 ∧
      (0 : ℚ) < 4 ∧ (4 : ℚ) < exLineC2.length + 100 := by
  refine ⟨by decide, ?_, by norm_num, ?_⟩
  · show (if ((0 : ℚ), (1 : ℚ)) = ((0 : ℚ), (0 : ℚ)) then (1 : ℚ) else 5)
        - (if ((0 : ℚ), (0 : ℚ)) = ((0 : ℚ), (0 : ℚ)) then (1 : ℚ) else 5) = 4
    norm_num
  · show (4 : ℚ) < 10 + 100
    norm_num

/-- C2 amended: the three-tier policy, with tier 2 refined to what the code
does — if the linestring is not simple, or an endpoint stop geometry lookup
fails, the full linestring length is returned without consulting the
projections; only for a simple linestring with both stop geometries found is
the projection difference used, guarded by the strict window
`(0, length + 100)`; a missing shape geometry yields null, and the tier-2
result is converted from meters by `m_to_dist`. -/
theorem tripDistances_policy (shapes : Option (String → Option LineString))
    (gstop : String → Option Point) (m_to_dist : ℚ → ℚ)
    (cdfs : Bool) (f : List TripGroup) :
    (is_not_null_sdt f = true → cdfs = false →
        tripDistances shapes gstop m_to_dist cdfs f = f.map maxSdt) ∧
    (¬(is_not_null_sdt f = true ∧ cdfs = false) → shapes = none →
        tripDistances shapes gstop m_to_dist cdfs f = f.map fun _ => none) ∧
    (∀ gbs, ¬(is_not_null_sdt f = true ∧ cdfs = false) → shapes = some gbs →
        tripDistances shapes gstop m_to_dist cdfs f
          = f.map fun g => (compute_dist gbs gstop g).map m_to_dist) ∧
    (∀ (gbs : String → Option LineString) (g : TripGroup),
        g.shape_id.bind gbs = none → compute_dist gbs gstop g = none) ∧
    (∀ (gbs : String → Option LineString) (g : TripGroup) (ls : LineString),
        g.shape_id.bind gbs = some ls → ls.isSimple = false →
        compute_dist gbs gstop g = some ls.length) ∧
    (∀ (gbs : String → Option LineString) (g : TripGroup) (ls : LineString)
        (st0 : StopTimeEntry) (rest : List StopTimeEntry) (p q : Point),
        g.shape_id.bind gbs = some ls → ls.isSimple = true →
        g.stop_times = st0 :: rest →
        gstop st0.stop_id = some p →
        gstop ((rest.getLast?).getD st0).stop_id = some q →
        compute_dist gbs gstop g =
          (if 0 < ls.project q - ls.project p ∧
              ls.project q - ls.project p < ls.length + 100
           then some (ls.project q - ls.project p) else some ls.length)) ∧
    (∀ (gbs : String → Option LineString) (g : TripGroup) (ls : LineString)
        (st0 : StopTimeEntry) (rest : List StopTimeEntry),
        g.shape_id.bind gbs = some ls → ls.isSimple = true →
        g.stop_times = st0 :: rest →
        (gstop st0.stop_id = none ∨ gstop ((rest.getLast?).getD st0).stop_id = none) →
        compute_dist gbs gstop g = some ls.length) := by
  refine ⟨?_, ?_, ?_, ?_, ?_, ?_, ?_⟩
  · intro h1 h2
    rw [tripDistances.eq_def, if_pos ⟨h1, h2⟩]
  · intro hneg hsh
    subst hsh
    rw [tripDistances.eq_def, if_neg hneg]
  · intro gbs hneg hsh
    subst hsh
    rw [tripDistances.eq_def, if_neg hneg]
  · intro gbs g hsh
    rw [compute_dist, hsh]
  · intro gbs g ls hsh hsimple
    simp [compute_dist, hsh, hsimple]
  · intro gbs g ls st0 rest p q hsh hsimple hst hp hq
    simp [compute_dist, hsh, hst, hsimple, hp, hq]
  · intro gbs g ls st0 rest hsh hsimple hst hfail
    rcases hfail with hf | hf
    · simp [compute_dist, hsh, hst, hsimple, hf]
    · rcases hpp : gstop st0.stop_id with - | p2 <;>
        simp [compute_dist, hsh, hst, hsimple, hf, hpp]

/-- Witness for C2 amended: the concrete self-intersecting example goes
through tier 2 and `compute_dist` returns the full length. -/
theorem tripDistances_policy_witness :
    tripDistances (some exShapesC2) exStopsC2 (fun d => d) false [exGroupC2]
        = [(compute_dist exShapesC2 exStopsC2 exGroupC2).map (fun d => d)] ∧
      compute_dist exShapesC2 exStopsC2 exGroupC2 = some exLineC2.length := by
  constructor
  · exact (tripDistances_policy (some exShapesC2) exStopsC2 (fun d => d) false
      [exGroupC2]).2.2.1 exShapesC2 (by decide) rfl
  · exact (tripDistances_policy (some exShapesC2) exStopsC2 (fun d => d) false
      [exGroupC2]).2.2.2.2.1 exShapesC2 exGroupC2 exLineC2 rfl rfl

/-! ## Calendar resolver (src/gtfstk/trips.py `is_active_trip` and
src/feed.py `Feed.is_active_trip`) -/

/-- Python's string comparison: code-point lexicographic.  For the
`YYYYMMDD` date strings compared by the source this coincides with
chronological order (src/feed.py compares `datetime.date` objects, which
order the same way). -/
def strLeChars : List Char → List Char → Bool
  | [], _ => true
  | _ :: _, [] => false
  | a :: as, b :: bs =>
    if a.toNat < b.toNat then true
    else if b.toNat < a.toNat then false
    else strLeChars as bs

/-- String wrapper for `strLeChars`. -/
def pyStrLe (a b : String) : Bool :=
  strLeChars a.data b.data

/-- Modelled from the spec: dates are exchanged as `YYYYMMDD` strings; this
parses the three numeric components (the helpers module's `datestr_to_date`
is not under src/).  Python's `datetime.date` additionally validates the
day against the month length; this model only range-checks, which agrees on
every date the claims exercise. -/
def parseDatestr (s : String) : Option (ℕ × ℕ × ℕ) :=
  match s.data with
  | [y1, y2, y3, y4, m1, m2, d1, d2] =>
    match parseNatDigits [y1, y2, y3, y4], parseNatDigits [m1, m2],
        parseNatDigits [d1, d2] with
    | some y, some mo, some d =>
      if 1 ≤ y ∧ 1 ≤ mo ∧ mo ≤ 12 ∧ 1 ≤ d ∧ d ≤ 31 then some (y, mo, d) else none
    | _, _, _ => none
  | _ => none

/-- Sakamoto's day-of-week method, 0 = Sunday. -/
def sakamotoDow (y mo d : ℕ) : ℕ :=
  let t := [0, 3, 2, 5, 0, 3, 5, 1, 4, 6, 2, 4]
  let y2 := if mo < 3 then y - 1 else y
  (y2 + y2 / 4 + y2 / 400 + t.getD (mo - 1) 0 + d - y2 / 100) % 7

/-- `datetime.date.weekday()` (Monday = 0 … Sunday = 6) of the date written
in a `YYYYMMDD` string; `none` when the string is not a valid date. -/
def datestrWeekday (s : String) : Option ℕ :=
  (parseDatestr s).map fun ymd => (sakamotoDow ymd.1 ymd.2.1 ymd.2.2 + 6) % 7

/-- One row of the `calendar` table. -/
structure CalendarRow where
  service_id : String
  start_date : String
  end_date : String
  monday : ℤ
  tuesday : ℤ
  wednesday : ℤ
  thursday : ℤ
  friday : ℤ
  saturday : ℤ
  sunday : ℤ
deriving DecidableEq

/-- One row of the `calendar_dates` table. -/
structure CalendarDateRow where
  service_id : String
  date : String
  exception_type : ℤ
deriving DecidableEq

/-- One row of the `trips` table (the columns the claims read). -/
structure TripRow where
  trip_id : String
  route_id : String
  service_id : String
deriving DecidableEq

/-- `weekday_to_str` of src/feed.py composed with the row lookup
`row[weekday_str]`: weekday 0 selects the monday flag, and so on. -/
def weekdayFlag (r : CalendarRow) : ℕ → ℤ
  | 0 => r.monday
  | 1 => r.tuesday
  | 2 => r.wednesday
  | 3 => r.thursday
  | 4 => r.friday
  | 5 => r.saturday
  | _ => r.sunday

/-- The parts of a gtfstk `Feed` that `is_active_trip` of
src/gtfstk/trips.py reads: the trip-indexed `_trips_i`, the grouped
exceptions `_calendar_dates_g` (`none` when the feed has no calendar_dates
table), and the service-indexed `_calendar_i` (`none` when absent). -/
structure GFeed where
  trips : List TripRow
  calendar : Option (List CalendarRow)
  calendar_dates : Option (List CalendarDateRow)
  validDates : List String

/-- `is_active_trip(feed, trip_id, date)` of src/gtfstk/trips.py.  `none`
models a raised exception (the `_trips_i.at` lookup of an unknown trip, or
an unparseable date string reaching `datestr_to_date`).  The
`(service, date) in caldg.groups` test together with
`get_group(...)['exception_type'].iat[0]` reads the first row of the
exceptions table with that service id and date, in table order. -/
def is_active_trip (feed : GFeed) (trip_id date : String) : Option Bool :=
  match feed.trips.find? (fun tr => tr.trip_id == trip_id) with
  | none => none
  | some tr =>
    let service := tr.service_id
    let exc : Option CalendarDateRow :=
      match feed.calendar_dates with
      | none => none
      | some cds => cds.find? fun r => r.service_id == service && r.date == date
    match exc with
    | some r => some (r.exception_type == 1)
    | none =>
      match feed.calendar with
      | none => some false
      | some cal =>
        match cal.find? fun r => r.service_id == service with
        | none => some false
        | some row =>
          match datestrWeekday date with
          | none => none
          | some wd =>
            some (pyStrLe row.start_date date && pyStrLe date row.end_date
              && (weekdayFlag row wd == 1))

/-- The parts of the src/feed.py `Feed` that `Feed.is_active_trip` reads:
the trips and calendar tables (from which `calendar_m` is merged) and
`calendar_dates` (the empty list when the file is absent). -/
structure PFeed where
  trips : List TripRow
  calendar : List CalendarRow
  calendar_dates : List CalendarDateRow

/-- `self.calendar_m.ix[trip]` of src/feed.py: `calendar_m` is the inner
merge of `trips[['trip_id', 'service_id']]` with `calendar` indexed by trip
id, so the row exists only when the trip exists and its service id occurs
in `calendar`; the `.ix` lookup of a missing label raises a `KeyError`
(modelled as `none` by the caller). -/
def calendar_m (feed : PFeed) (trip_id : String) : Option (String × CalendarRow) :=
  match feed.trips.find? (fun tr => tr.trip_id == trip_id) with
  | none => none
  | some tr =>
    match feed.calendar.find? (fun r => r.service_id == tr.service_id) with
    | none => none
    | some row => some (tr.service_id, row)

/-- `Feed.is_active_trip(trip, date)` of src/feed.py: fetch the trip's
`calendar_m` row (raising on a missing label, modelled as `none`); if any
exception row with type 1 matches (service, date), return True; else if any
with type 2 matches, return False; else apply the regular calendar check.
The source guards the exception filters with `if not cald.empty`, which is
equivalent because filters over an empty table match nothing. -/
def feed_is_active_trip (feed : PFeed) (trip_id date : String) : Option Bool :=
  match calendar_m feed trip_id with
  | none => none
  | some sr =>
    let service := sr.1
    let row := sr.2
    if (feed.calendar_dates.find? fun r =>
        r.service_id == service && r.date == date && r.exception_type == 1).isSome then
      some true
    else if (feed.calendar_dates.find? fun r =>
        r.service_id == service && r.date == date && r.exception_type == 2).isSome then
      some false
    else
      match datestrWeekday date with
      | none => none
      | some wd =>
        some (pyStrLe row.start_date date && pyStrLe date row.end_date
          && (weekdayFlag row wd == 1))

/-! ### Scenario lemmas for the two activity functions -/

lemma find?_first {α : Type} (p : α → Bool) (pre post : List α) (r : α)
    (hpre : ∀ x ∈ pre, p x = false) (hr : p r = true) :
    (pre ++ r :: post).find? p = some r := by
  induction pre with
  | nil => simp [List.find?, hr]
  | cons a as ih =>
    have ha : p a = false := hpre a (by simp)
    simp only [List.cons_append, List.find?, ha]
    exact ih fun x hx => hpre x (by simp [hx])

lemma gtfstk_exception_wins (feed : GFeed) (trip_id date : String) (tr : TripRow)
    (cds : List CalendarDateRow) (r : CalendarDateRow)
    (hfind : feed.trips.find? (fun t => t.trip_id == trip_id) = some tr)
    (hcds : feed.calendar_dates = some cds)
    (hr : cds.find? (fun x => x.service_id == tr.service_id && x.date == date) = some r) :
    is_active_trip feed trip_id date = some (r.exception_type == 1) := by
  simp only [is_active_trip, hfind, hcds, hr]

lemma gtfstk_regular (feed : GFeed) (trip_id date : String) (tr : TripRow)
    (cal : List CalendarRow) (row : CalendarRow) (wd : ℕ)
    (hfind : feed.trips.find? (fun t => t.trip_id == trip_id) = some tr)
    (hexc : ∀ cds, feed.calendar_dates = some cds →
      cds.find? (fun x => x.service_id == tr.service_id && x.date == date) = none)
    (hcal : feed.calendar = some cal)
    (hrow : cal.find? (fun x => x.service_id == tr.service_id) = some row)
    (hwd : datestrWeekday date = some wd) :
    is_active_trip feed trip_id date =
      some (pyStrLe row.start_date date && pyStrLe date row.end_date
        && (weekdayFlag row wd == 1)) := by
  rcases hc1 : feed.calendar_dates with - | cds0
  · simp only [is_active_trip, hfind, hc1, hcal, hrow, hwd]
  · simp only [is_active_trip, hfind, hc1, hexc cds0 hc1, hcal, hrow, hwd]

lemma gtfstk_no_service (feed : GFeed) (trip_id date : String) (tr : TripRow)
    (hfind : feed.trips.find? (fun t => t.trip_id == trip_id) = some tr)
    (hexc : ∀ cds, feed.calendar_dates = some cds →
      cds.find? (fun x => x.service_id == tr.service_id && x.date == date) = none)
    (hcal : ∀ cal, feed.calendar = some cal →
      cal.find? (fun x => x.service_id == tr.service_id) = none) :
    is_active_trip feed trip_id date = some false := by
  rcases hc1 : feed.calendar_dates with - | cds0 <;>
    rcases hc2 : feed.calendar with - | cal0
  · simp only [is_active_trip, hfind, hc1, hc2]
  · simp only [is_active_trip, hfind, hc1, hc2, hcal cal0 hc2]
  · simp only [is_active_trip, hfind, hc1, hexc cds0 hc1, hc2]
  · simp only [is_active_trip, hfind, hc1, hexc cds0 hc1, hc2, hcal cal0 hc2]

lemma pfeed_active_eq (feed : PFeed) (trip_id date : String) (service : String)
    (row : CalendarRow)
    (hm : calendar_m feed trip_id = some (service, row)) :
    feed_is_active_trip feed trip_id date =
      (if (feed.calendar_dates.find? fun r =>
            r.service_id == service && r.date == date && r.exception_type == 1).isSome then
        some true
      else if (feed.calendar_dates.find? fun r =>
            r.service_id == service && r.date == date && r.exception_type == 2).isSome then
        some false
      else
        match datestrWeekday date with
        | none => none
        | some wd => some (pyStrLe row.start_date date && pyStrLe date row.end_date
            && (weekdayFlag row wd == 1))) := by
  simp only [feed_is_active_trip, hm]

lemma pfeed_active_raise (feed : PFeed) (trip_id date : String)
    (hm : calendar_m feed trip_id = none) :
    feed_is_active_trip feed trip_id date = none := by
  simp only [feed_is_active_trip, hm]

/-! ### Claim C1: order of the activity decision -/

/-- C1 amended: for `is_active_trip` of src/gtfstk/trips.py the claim holds
as stated — a matching calendar exception decides immediately (type 1 active,
any other type inactive), otherwise a calendar row for the service decides by
date range and weekday flag, otherwise the result is False without an error.
For `Feed.is_active_trip` of src/feed.py the same priority holds only for
trips whose service id occurs in the calendar table; a trip whose service id
is absent from the calendar raises a `KeyError` from the `calendar_m` lookup
(modelled as `none`) instead of returning False, even when exception rows for
the service exist. -/
theorem activity_decision_order :
    (∀ (feed : GFeed) (trip_id date : String) (tr : TripRow)
        (cds : List CalendarDateRow) (r : CalendarDateRow),
        feed.trips.find? (fun t => t.trip_id == trip_id) = some tr →
        feed.calendar_dates = some cds →
        cds.find? (fun x => x.service_id == tr.service_id && x.date == date) = some r →
        is_active_trip feed trip_id date = some (r.exception_type == 1)) ∧
    (∀ (feed : GFeed) (trip_id date : String) (tr : TripRow)
        (cal : List CalendarRow) (row : CalendarRow) (wd : ℕ),
        feed.trips.find? (fun t => t.trip_id == trip_id) = some tr →
        (∀ cds, feed.calendar_dates = some cds →
          cds.find? (fun x => x.service_id == tr.service_id && x.date == date) = none) →
        feed.calendar = some cal →
        cal.find? (fun x => x.service_id == tr.service_id) = some row →
        datestrWeekday date = some wd →
        is_active_trip feed trip_id date =
          some (pyStrLe row.start_date date && pyStrLe date row.end_date
            && (weekdayFlag row wd == 1))) ∧
    (∀ (feed : GFeed) (trip_id date : String) (tr : TripRow),
        feed.trips.find? (fun t => t.trip_id == trip_id) = some tr →
        (∀ cds, feed.calendar_dates = some cds →
          cds.find? (fun x => x.service_id == tr.service_id && x.date == date) = none) →
        (∀ cal, feed.calendar = some cal →
          cal.find? (fun x => x.service_id == tr.service_id) = none) →
        is_active_trip feed trip_id date = some false) ∧
    (∀ (feed : PFeed) (trip_id date service : String) (row : CalendarRow),
        calendar_m feed trip_id = some (service, row) →
        feed_is_active_trip feed trip_id date =
          (if (feed.calendar_dates.find? fun r =>
                r.service_id == service && r.date == date && r.exception_type == 1).isSome
           then some true
           else if (feed.calendar_dates.find? fun r =>
                r.service_id == service && r.date == date && r.exception_type == 2).isSome
           then some false
           else
            match datestrWeekday date with
            | none => none
            | some wd => some (pyStrLe row.start_date date && pyStrLe date row.end_date
                && (weekdayFlag row wd == 1)))) ∧
    (∀ (feed : PFeed) (trip_id date : String),
        calendar_m feed trip_id = none →
        feed_is_active_trip feed trip_id date = none) :=
  ⟨gtfstk_exception_wins, gtfstk_regular, gtfstk_no_service,
    pfeed_active_eq, pfeed_active_raise⟩

/-- A feed whose only trip has a service id absent from both the calendar
and the exceptions table. -/
def exPF1 : PFeed := ⟨[⟨"t1", "r1", "s1"⟩], [], []⟩

/-- C1 counterexample: the trip exists but its service id is absent from
both tables, and `Feed.is_active_trip` of src/feed.py raises (the
`calendar_m.ix` lookup fails; modelled as `none`) instead of returning
False as the claim states. -/
theorem feed_active_unknown_service_raises :
    exPF1.calendar = [] ∧ exPF1.calendar_dates = [] ∧
      exPF1.trips.find? (fun t => t.trip_id == "t1") = some ⟨"t1", "r1", "s1"⟩ ∧
      feed_is_active_trip exPF1 "t1" "20240108" = none :=
  ⟨rfl, rfl, rfl, rfl⟩

/-- A gtfstk feed with a Monday-only calendar entry and a type-2 exception. -/
def exGF1 : GFeed :=
  ⟨[⟨"t1", "r1", "s1"⟩],
    some [⟨"s1", "20240101", "20241231", 1, 0, 0, 0, 0, 0, 0⟩],
    some [⟨"s1", "20240115", 2⟩], []⟩

/-- A gtfstk feed whose trip's service id is unknown to both tables. -/
def exGF2 : GFeed :=
  ⟨[⟨"t1", "r1", "sX"⟩],
    some [⟨"s1", "20240101", "20241231", 1, 0, 0, 0, 0, 0, 0⟩], none, []⟩

/-- The src/feed.py variant of `exGF1`. -/
def exPF1b : PFeed :=
  ⟨[⟨"t1", "r1", "s1"⟩],
    [⟨"s1", "20240101", "20241231", 1, 0, 0, 0, 0, 0, 0⟩],
    [⟨"s1", "20240115", 2⟩]⟩

/-- Witness for C1 amended, exercising every conjunct: the type-2 exception
deactivates 2024-01-15 (a Monday); 2024-01-08 (a Monday without exception)
is active by the weekday flag; an unknown service yields False in the
gtfstk version; the src/feed.py version agrees on the active Monday; and
the src/feed.py version raises on the unknown service. -/
theorem activity_decision_order_witness :
    is_active_trip exGF1 "t1" "20240115" = some false ∧
      is_active_trip exGF1 "t1" "20240108" = some true ∧
      is_active_trip exGF2 "t1" "20240108" = some false ∧
      feed_is_active_trip exPF1b "t1" "20240108" = some true ∧
      feed_is_active_trip exPF1 "t1" "20240108" = none := by
  refine ⟨?_, ?_, ?_, ?_, ?_⟩
  · exact (activity_decision_order.1 exGF1 "t1" "20240115" ⟨"t1", "r1", "s1"⟩
      [⟨"s1", "20240115", 2⟩] ⟨"s1", "20240115", 2⟩ rfl rfl rfl).trans (by decide)
  · exact (activity_decision_order.2.1 exGF1 "t1" "20240108" ⟨"t1", "r1", "s1"⟩
      [⟨"s1", "20240101", "20241231", 1, 0, 0, 0, 0, 0, 0⟩]
      ⟨"s1", "20240101", "20241231", 1, 0, 0, 0, 0, 0, 0⟩ 0 rfl
      (fun cds h => by
        obtain rfl : [⟨"s1", "20240115", 2⟩] = cds := Option.some.inj h
        rfl)
      rfl rfl rfl).trans (by decide)
  · exact activity_decision_order.2.2.1 exGF2 "t1" "20240108" ⟨"t1", "r1", "sX"⟩ rfl
      (fun cds h => Option.noConfusion h)
      (fun cal h => by
        obtain rfl : [⟨"s1", "20240101", "20241231", 1, 0, 0, 0, 0, 0, 0⟩] = cal :=
          Option.some.inj h
        rfl)
  · exact (activity_decision_order.2.2.2.1 exPF1b "t1" "20240108" "s1"
      ⟨"s1", "20240101", "20241231", 1, 0, 0, 0, 0, 0, 0⟩ rfl).trans (by decide)
  · exact activity_decision_order.2.2.2.2 exPF1 "t1" "20240108" rfl

/-! ### Claim C4: duplicate calendar exceptions -/

/-- C4 amended: in `is_active_trip` of src/gtfstk/trips.py the first matching
exception row in table order wins, regardless of the exception types of the
duplicates; in `Feed.is_active_trip` of src/feed.py a type-1 row takes
priority over a type-2 row for the same (service_id, date) regardless of
table order — a type-2 row only decides when no type-1 row matches. -/
theorem duplicate_exception_policy :
    (∀ (feed : GFeed) (trip_id date : String) (tr : TripRow)
        (pre post : List CalendarDateRow) (r : CalendarDateRow),
        feed.trips.find? (fun t => t.trip_id == trip_id) = some tr →
        feed.calendar_dates = some (pre ++ r :: post) →
        (∀ x ∈ pre, (x.service_id == tr.service_id && x.date == date) = false) →
        (r.service_id == tr.service_id && r.date == date) = true →
        is_active_trip feed trip_id date = some (r.exception_type == 1)) ∧
    (∀ (feed : PFeed) (trip_id date service : String) (row : CalendarRow),
        calendar_m feed trip_id = some (service, row) →
        (feed.calendar_dates.find? fun r =>
          r.service_id == service && r.date == date && r.exception_type == 1).isSome = true →
        feed_is_active_trip feed trip_id date = some true) ∧
    (∀ (feed : PFeed) (trip_id date service : String) (row : CalendarRow),
        calendar_m feed trip_id = some (service, row) →
        (feed.calendar_dates.find? fun r =>
          r.service_id == service && r.date == date && r.exception_type == 1) = none →
        (feed.calendar_dates.find? fun r =>
          r.service_id == service && r.date == date && r.exception_type == 2).isSome = true →
        feed_is_active_trip feed trip_id date = some false) := by
  refine ⟨?_, ?_, ?_⟩
  · intro feed trip_id date tr pre post r hfind hcds hpre hr
    exact gtfstk_exception_wins feed trip_id date tr _ r hfind hcds
      (find?_first _ pre post r hpre hr)
  · intro feed trip_id date service row hm h1
    rw [pfeed_active_eq feed trip_id date service row hm, if_pos h1]
  · intro feed trip_id date service row hm h1 h2
    rw [pfeed_active_eq feed trip_id date service row hm,
      if_neg (by simp [h1]), if_pos h2]

/-- A src/feed.py feed with two exception rows for (s1, 2024-01-08): a
type-2 row first, a type-1 row second. -/
def exPF4 : PFeed :=
  ⟨[⟨"t1", "r1", "s1"⟩],
    [⟨"s1", "20240101", "20241231", 1, 1, 1, 1, 1, 1, 1⟩],
    [⟨"s1", "20240108", 2⟩, ⟨"s1", "20240108", 1⟩]⟩

/-- C4 counterexample: the first matching exception row in table order has
type 2, so first-match-wins predicts inactive, but `Feed.is_active_trip` of
src/feed.py returns True because it checks type-1 rows first. -/
theorem feed_active_duplicate_ignores_order :
    exPF4.calendar_dates.find?
        (fun r => r.service_id == "s1" && r.date == "20240108")
        = some ⟨"s1", "20240108", 2⟩ ∧
      feed_is_active_trip exPF4 "t1" "20240108" = some true :=
  ⟨rfl, by decide⟩

/-- The gtfstk variant of `exPF4` (same duplicate exception rows). -/
def exGF4 : GFeed :=
  ⟨[⟨"t1", "r1", "s1"⟩],
    some [⟨"s1", "20240101", "20241231", 1, 1, 1, 1, 1, 1, 1⟩],
    some [⟨"s1", "20240108", 2⟩, ⟨"s1", "20240108", 1⟩], []⟩

/-- A src/feed.py feed with a single type-2 exception row. -/
def exPF4b : PFeed :=
  ⟨[⟨"t1", "r1", "s1"⟩],
    [⟨"s1", "20240101", "20241231", 1, 1, 1, 1, 1, 1, 1⟩],
    [⟨"s1", "20240108", 2⟩]⟩

/-- Witness for C4 amended: on the duplicate rows the gtfstk version follows
the first (type-2) row and reports inactive, the src/feed.py version reports
active; with only a type-2 row the src/feed.py version reports inactive. -/
theorem duplicate_exception_policy_witness :
    is_active_trip exGF4 "t1" "20240108" = some false ∧
      feed_is_active_trip exPF4 "t1" "20240108" = some true ∧
      feed_is_active_trip exPF4b "t1" "20240108" = some false := by
  refine ⟨?_, ?_, ?_⟩
  · exact (duplicate_exception_policy.1 exGF4 "t1" "20240108" ⟨"t1", "r1", "s1"⟩
      [] [⟨"s1", "20240108", 1⟩] ⟨"s1", "20240108", 2⟩ rfl rfl
      (fun x hx => absurd hx (by simp)) (by decide)).trans (by decide)
  · exact duplicate_exception_policy.2.1 exPF4 "t1" "20240108" "s1"
      ⟨"s1", "20240101", "20241231", 1, 1, 1, 1, 1, 1, 1⟩ rfl (by decide)
  · exact duplicate_exception_policy.2.2 exPF4b "t1" "20240108" "s1"
      ⟨"s1", "20240101", "20241231", 1, 1, 1, 1, 1, 1, 1⟩ rfl (by decide) (by decide)

/-! ## Activity matrices and route aggregation
(src/gtfstk/trips.py `compute_trip_activity`, src/feed.py
`Feed.get_trips_activity` and `Feed.get_routes_stats`) -/

/-- Map a fallible function over a list, propagating the first failure, as a
Python loop propagates an exception. -/
def olist {α β : Type} (f : α → Option β) : List α → Option (List β)
  | [] => some []
  | a :: l =>
    match f a, olist f l with
    | some b, some bs => some (b :: bs)
    | _, _ => none

/-- Modelled from the spec: `feed.restrict_dates` (a gtfstk Feed method not
under src/) keeps the given dates that fall inside the feed's validity
period, here recorded as the `validDates` field. -/
def restrict_dates (feed : GFeed) (dates : List String) : List String :=
  dates.filter fun d => feed.validDates.contains d

/-- `compute_trip_activity(feed, dates)` of src/gtfstk/trips.py: restrict
the dates, return an empty DataFrame when none remain, else one row per
trip with a 0/1 activity cell per date.  `none` models an exception raised
by `is_active_trip` inside the column loop. -/
def compute_trip_activity (feed : GFeed) (dates : List String) :
    Option (List (String × List ℤ)) :=
  let dates2 := restrict_dates feed dates
  if dates2 = [] then some []
  else
    olist (fun tr =>
      (olist (fun d => is_active_trip feed tr.trip_id d) dates2).map
        fun bs => (tr.trip_id, bs.map fun b => if b then (1 : ℤ) else 0)) feed.trips

/-- `Feed.get_trips_activity(dates)` of src/feed.py: `if not dates: return`
gives Python `None` (modelled as `none`, like a raised exception — in both
cases no DataFrame is produced); otherwise one row per trip of `trips` with
trip id, route id and a 0/1 cell per date. -/
def get_trips_activity (feed : PFeed) (dates : List String) :
    Option (List (TripRow × List ℤ)) :=
  if dates = [] then none
  else
    olist (fun tr =>
      (olist (fun d => feed_is_active_trip feed tr.trip_id d) dates).map
        fun bs => (tr, bs.map fun b => if b then (1 : ℤ) else 0)) feed.trips

/-- One row of the `trips_stats` input of `Feed.get_routes_stats`
(src/feed.py): start and end times are time strings, duration seconds and
distance meters are numeric. -/
structure TripStatRow where
  trip_id : String
  route_id : String
  start_time : String
  end_time : String
  duration : ℚ
  distance : ℚ
deriving DecidableEq

/-- A merged trips-stats row after start-time conversion: the stats row, its
start time in seconds, and its activity cells. -/
structure ActiveTripRow where
  stat : TripStatRow
  startSec : ℤ
  acts : List ℤ
deriving DecidableEq

/-- `pd.merge(trips_stats, self.get_trips_activity(dates))` of src/feed.py:
an inner join on the shared trip_id and route_id columns (trip ids are
unique, so at most one activity row matches). -/
def mergeActivity (trips_stats : List TripStatRow)
    (activity : List (TripRow × List ℤ)) : List (TripStatRow × List ℤ) :=
  trips_stats.filterMap fun st =>
    (activity.find? fun a => a.1.trip_id == st.trip_id && a.1.route_id == st.route_id).map
      fun a => (st, a.2)

/-- A trip's weight: the sum of its activity cells over the number of
requested dates (src/feed.py line `trips_stats[dates].sum(axis=1)/len(dates)`). -/
def tripWeight (numDates : ℕ) (acts : List ℤ) : ℚ :=
  (acts.sum : ℚ) / (numDates : ℚ)

/-- Convert the `start_time` column to seconds
(`trips_stats['start_time'].map(seconds_to_timestr(inverse=True))` in
src/feed.py).  A malformed time string puts `None` in the Python column and
breaks the arithmetic downstream; here the failure propagates immediately. -/
def convertStarts (rows : List (TripStatRow × List ℤ)) : Option (List ActiveTripRow) :=
  olist (fun r => (timestr_to_seconds r.1.start_time).map fun s => ⟨r.1, s, r.2⟩) rows

/-- Consecutive differences `stimes[i+1] - stimes[i]` of the headway loop in
src/feed.py `get_route_stats`. -/
def consecutiveDiffs (l : List ℤ) : List ℤ :=
  (l.zip l.tail).map fun p => p.2 - p.1

/-- The start times qualifying for headways on the date at index `i`:
trips active on that date, start times sorted (`sorted(...)` — duplicates
kept), then restricted to the inclusive window 07:00 to 19:00
(`7*3600 <= stime <= 19*3600` in src/feed.py). -/
def qualifyingStarts (group : List ActiveTripRow) (i : ℕ) : List ℤ :=
  (((group.filter fun r => decide (0 < r.acts.getD i 0)).map (fun r => r.startSec)).insertionSort
      (· ≤ ·)).filter
    fun t => decide (7 * 3600 ≤ t ∧ t ≤ 19 * 3600)

/-- The headway list of a route group: per-date consecutive differences of
the qualifying start times, concatenated over the dates in order
(`headways.extend(...)` in src/feed.py). -/
def routeHeadways (numDates : ℕ) (group : List ActiveTripRow) : List ℤ :=
  ((List.range numDates).map fun i => consecutiveDiffs (qualifyingStarts group i)).flatten

/-- Python 2's built-in `round` (src/feed.py runs only under Python 2 —
`izip`, `iteritems`): nearest integer, ties away from zero; for `x ≥ 0`
this is `floor(x + 0.5)`, for `x < 0` it is `-floor(-x + 0.5)`. -/
def pyRound (x : ℚ) : ℤ :=
  if x < 0 then -⌊-x + 1 / 2⌋ else ⌊x + 1 / 2⌋

/-- `np.max` over a nonempty Python list; `none` for the empty list (the
source only calls it behind an `if headways:` guard). -/
def omax (l : List ℤ) : Option ℤ :=
  match l with
  | [] => none
  | v :: vs => some (vs.foldl max v)

/-- pandas `Series.min` over integer values; `none` on an empty series. -/
def omin (l : List ℤ) : Option ℤ :=
  match l with
  | [] => none
  | v :: vs => some (vs.foldl min v)

/-- pandas `Series.max` over string values (lexicographic). -/
def omaxStr (l : List String) : Option String :=
  match l with
  | [] => none
  | v :: vs => some (vs.foldl (fun a b => if pyStrLe a b then b else a) v)

/-- One output row of `Feed.get_routes_stats` (src/feed.py); the column set
of the produced frame — note there is no min_headway column. -/
structure RouteStatsRow where
  route_id : String
  min_start_time : Option String
  max_end_time : Option String
  mean_daily_num_trips : ℚ
  max_headway : Option ℤ
  mean_headway : Option ℤ
  mean_daily_duration : ℚ
  mean_daily_distance : ℚ
deriving DecidableEq

/-- `get_route_stats(group)` of src/feed.py `Feed.get_routes_stats`: the
stats of one route group.  `min_start_time` is converted back to a time
string (done after the groupby in the source); `max_end_time` stays the
lexicographic maximum of the raw end-time strings (the source never converts
that column); when the headway list is empty both headway fields are NaN,
otherwise `mean_headway = round(np.mean(headways))` with Python 2's
ties-away-from-zero `round`. -/
def get_route_stats (numDates : ℕ) (route : String) (group : List ActiveTripRow) :
    RouteStatsRow :=
  let headways := routeHeadways numDates group
  { route_id := route
    min_start_time := (omin (group.map fun r => r.startSec)).map seconds_to_timestr
    max_end_time := omaxStr (group.map fun r => r.stat.end_time)
    mean_daily_num_trips := (group.map fun r => tripWeight numDates r.acts).sum
    max_headway := omax headways
    mean_headway :=
      match headways with
      | [] => none
      | _ :: _ => some (pyRound ((headways.sum : ℚ) / (headways.length : ℚ)))
    mean_daily_duration := (group.map fun r => r.stat.duration * tripWeight numDates r.acts).sum
    mean_daily_distance := (group.map fun r => r.stat.distance * tripWeight numDates r.acts).sum }

/-- `Feed.get_routes_stats(trips_stats, dates)` of src/feed.py: `None` on an
empty dates list; else merge with the activity frame, weight each trip by
its fraction of active days, drop zero-weight trips, convert start times to
seconds, group the remaining rows by route id (pandas sorts the group keys)
and compute per-route stats.  When no row survives the weight filter, the
groupby-apply runs zero times, so the `'foo'` index level is never created
and `del result['foo']` (src/feed.py line 613) raises a `KeyError`, modelled
as `none` like the other error exits. -/
def getRoutesStats (feed : PFeed) (trips_stats : List TripStatRow)
    (dates : List String) : Option (List RouteStatsRow) :=
  if dates = [] then none
  else
    match get_trips_activity feed dates with
    | none => none
    | some acts =>
      let merged := mergeActivity trips_stats acts
      let pos := merged.filter fun r => decide (0 < tripWeight dates.length r.2)
      match convertStarts pos with
      | none => none
      | some rows =>
        if rows = [] then none
        else
          let routes := ((rows.map fun r => r.stat.route_id).insertionSort
            (fun a b => pyStrLe a b = true)).dedup
          some (routes.map fun rt =>
            get_route_stats dates.length rt (rows.filter fun r => r.stat.route_id == rt))

/-- The time fields of `my_agg` in `compute_trip_stats`
(src/gtfstk/trips.py): on a trip's stop-time group sorted by stop sequence,
`start_time` is the first departure time, `end_time` the last, and
`duration = (end_time - start_time) / 3600` hours.  The departure column was
converted to seconds beforehand with the helpers' `timestr_to_seconds`,
which is not under src/ and is modelled from the spec by the same codec as
src/feed.py's `seconds_to_timestr(_, inverse=True)`. -/
def my_agg_times (departures : List String) : Option (ℤ × ℤ × ℚ) :=
  match departures with
  | [] => none
  | d0 :: rest =>
    match timestr_to_seconds d0, timestr_to_seconds ((rest.getLast?).getD d0) with
    | some s, some e => some (s, e, ((e - s : ℤ) : ℚ) / 3600)
    | _, _ => none

/-- The per-trip time aggregation of `Feed.get_trips_stats` (src/feed.py
lines 448-454): departure times are converted to seconds with
`seconds_to_timestr(_, inverse=True)`, `start_time` is the group minimum
(`np.min`), `end_time` the group maximum (`np.max`), and
`duration = end_time - start_time` stays in seconds — the docstring reads
"duration: duration of the trip (seconds)" and nothing divides by 3600. -/
def feed_trip_times (departures : List String) : Option (ℤ × ℤ × ℤ) :=
  match olist timestr_to_seconds departures with
  | none => none
  | some [] => none
  | some (v :: vs) =>
    some (vs.foldl min v, vs.foldl max v, vs.foldl max v - vs.foldl min v)

/-! ### Headway lemmas -/

lemma omax_eq_none_iff (l : List ℤ) : omax l = none ↔ l = [] := by
  cases l <;> simp [omax]

lemma olist_mem {α β : Type} (f : α → Option β) :
    ∀ {l : List α} {l' : List β}, olist f l = some l' → ∀ b ∈ l', ∃ a ∈ l, f a = some b
  | [], _, h, b, hb => by
    rw [olist] at h
    obtain rfl := Option.some.inj h
    simp at hb
  | a :: t, l', h, b, hb => by
    rw [olist] at h
    rcases hfa : f a with - | b0 <;> rw [hfa] at h
    · exact absurd h (by simp)
    · rcases hrest : olist f t with - | bs <;> rw [hrest] at h
      · exact absurd h (by simp)
      · obtain rfl : b0 :: bs = l' := Option.some.inj h
        rcases List.mem_cons.mp hb with rfl | hb2
        · exact ⟨a, by simp, hfa⟩
        · obtain ⟨a2, ha2, hfa2⟩ := olist_mem f hrest b hb2
          exact ⟨a2, by simp [ha2], hfa2⟩

lemma consecutiveDiffs_nonneg : ∀ l : List ℤ, l.Sorted (· ≤ ·) →
    ∀ d ∈ consecutiveDiffs l, 0 ≤ d
  | [], _, d, hd => by simp [consecutiveDiffs] at hd
  | [a], _, d, hd => by simp [consecutiveDiffs] at hd
  | a :: b :: t, hsort, d, hd => by
    have hab : a ≤ b := (List.sorted_cons.mp hsort).1 b (by simp)
    have htail : (b :: t).Sorted (· ≤ ·) := (List.sorted_cons.mp hsort).2
    have hstep : consecutiveDiffs (a :: b :: t) = (b - a) :: consecutiveDiffs (b :: t) := rfl
    rw [hstep] at hd
    rcases List.mem_cons.mp hd with rfl | hd2
    · omega
    · exact consecutiveDiffs_nonneg (b :: t) htail d hd2

lemma qualifyingStarts_sorted (group : List ActiveTripRow) (i : ℕ) :
    (qualifyingStarts group i).Sorted (· ≤ ·) := by
  exact (List.sorted_insertionSort (· ≤ ·)
    ((group.filter fun r => decide (0 < r.acts.getD i 0)).map fun r => r.startSec)).filter _

/-! ### Claim C5: headway computation of route aggregation -/

/-- Two trips of route r1, both starting 08:00:00, active on the one date. -/
def exGroup5 : List ActiveTripRow :=
  [⟨⟨"t1", "r1", "08:00:00", "09:00:00", 1, 1⟩, 28800, [1]⟩,
    ⟨⟨"t2", "r1", "08:00:00", "09:30:00", 1, 1⟩, 28800, [1]⟩]

/-- C5 counterexample: the group has a single distinct qualifying start
time, yet the headway fields are 0, not null — the source sorts the start
times without deduplicating, so the duplicate start contributes a zero
headway. -/
theorem route_headway_zero_not_null :
    (qualifyingStarts exGroup5 0).dedup = [28800] ∧
      (get_route_stats 1 "r1" exGroup5).max_headway = some 0 ∧
      (get_route_stats 1 "r1" exGroup5).mean_headway = some 0 := by
  refine ⟨by decide, ?_, ?_⟩ <;> with_unfolding_all rfl

/-- C5 amended: per route group the headway list is the concatenation, over
the dates in order, of the consecutive differences of the sorted — not
deduplicated — start times of the trips active on that date that start
within 07:00 to 19:00 inclusive.  Only `max_headway` and a rounded
`mean_headway` are reported (rounded with Python 2's `round`, ties away
from zero; the output schema has no min_headway column); both are null
exactly when that concatenated list is empty, every reported headway is
non-negative, and duplicate start times yield zero headways (so the fields
can be zero). -/
theorem route_headway_policy (numDates : ℕ) (route : String)
    (group : List ActiveTripRow) :
    ((get_route_stats numDates route group).max_headway = none ↔
      routeHeadways numDates group = []) ∧
    ((get_route_stats numDates route group).mean_headway = none ↔
      routeHeadways numDates group = []) ∧
    (get_route_stats numDates route group).max_headway
      = omax (routeHeadways numDates group) ∧
    (routeHeadways numDates group ≠ [] →
      (get_route_stats numDates route group).mean_headway =
        some (pyRound (((routeHeadways numDates group).sum : ℚ) /
          ((routeHeadways numDates group).length : ℚ)))) ∧
    (∀ h ∈ routeHeadways numDates group, 0 ≤ h) ∧
    (∀ i, qualifyingStarts group i =
      (((group.filter fun r => decide (0 < r.acts.getD i 0)).map
          (fun r => r.startSec)).insertionSort (· ≤ ·)).filter
        fun t => decide (7 * 3600 ≤ t ∧ t ≤ 19 * 3600)) := by
  refine ⟨?_, ?_, rfl, ?_, ?_, fun i => rfl⟩
  · show omax (routeHeadways numDates group) = none ↔ _
    exact omax_eq_none_iff _
  · cases hh : routeHeadways numDates group with
    | nil => simp [get_route_stats, hh]
    | cons a t => simp [get_route_stats, hh]
  · intro hne
    cases hh : routeHeadways numDates group with
    | nil => exact absurd hh hne
    | cons a t => simp [get_route_stats, hh]
  · intro h hmem
    rw [routeHeadways] at hmem
    obtain ⟨l, hl, hhl⟩ := List.mem_flatten.mp hmem
    obtain ⟨i, -, rfl⟩ := List.mem_map.mp hl
    exact consecutiveDiffs_nonneg _ (qualifyingStarts_sorted group i) h hhl

/-- Witness for C5 amended at the concrete duplicate-start group: the
headway fields agree with the headway-list characterization, and the
mean-headway formula applies because the list is nonempty. -/
theorem route_headway_policy_witness :
    ((get_route_stats 1 "r1" exGroup5).max_headway = none ↔
        routeHeadways 1 exGroup5 = []) ∧
      (get_route_stats 1 "r1" exGroup5).max_headway = omax (routeHeadways 1 exGroup5) ∧
      (get_route_stats 1 "r1" exGroup5).mean_headway =
        some (pyRound (((routeHeadways 1 exGroup5).sum : ℚ) /
          ((routeHeadways 1 exGroup5).length : ℚ))) :=
  ⟨(route_headway_policy 1 "r1" exGroup5).1,
    (route_headway_policy 1 "r1" exGroup5).2.2.1,
    (route_headway_policy 1 "r1" exGroup5).2.2.2.1 (by decide)⟩

/-! ### Claim C6: routes with only zero-weight trips -/

/-- A feed whose single trip's service has every weekday flag 0. -/
def exPF6 : PFeed :=
  ⟨[⟨"t1", "r1", "s1"⟩], [⟨"s1", "20240101", "20241231", 0, 0, 0, 0, 0, 0, 0⟩], []⟩

/-- The trips-stats input naming route r1. -/
def exStats6 : List TripStatRow :=
  [⟨"t1", "r1", "08:00:00", "09:00:00", 1, 5⟩]

/-- C6 counterexample: every trip of route r1 has weight 0 on the requested
date, so the weight filter leaves zero rows, the groupby runs over zero
groups, and `del result['foo']` raises a `KeyError` (modelled `none`) — the
aggregation produces no frame at all, not one null-valued row per route. -/
theorem routes_stats_zero_weight_raises :
    exStats6.map (fun st => st.route_id) = ["r1"] ∧
      getRoutesStats exPF6 exStats6 ["20240108"] = none := by
  refine ⟨rfl, ?_⟩
  with_unfolding_all rfl

/-- C6 amended: zero-weight trips are dropped before grouping, so every
output row's route has at least one positive-weight trip and a route all of
whose trips have weight zero is omitted from the output; when every trip's
weight is zero the aggregation raises a `KeyError` at `del result['foo']`
(the groupby-apply over zero rows never creates the `'foo'` level) and
returns no frame at all — never one null-valued row per route. -/
theorem routes_stats_zero_weight :
    (∀ (feed : PFeed) (trips_stats : List TripStatRow) (dates : List String)
        (acts : List (TripRow × List ℤ)),
        dates ≠ [] → get_trips_activity feed dates = some acts →
        (∀ r ∈ mergeActivity trips_stats acts, tripWeight dates.length r.2 = 0) →
        getRoutesStats feed trips_stats dates = none) ∧
    (∀ (feed : PFeed) (trips_stats : List TripStatRow) (dates : List String)
        (acts : List (TripRow × List ℤ)) (res : List RouteStatsRow),
        dates ≠ [] → get_trips_activity feed dates = some acts →
        getRoutesStats feed trips_stats dates = some res →
        ∀ row ∈ res, ∃ m ∈ mergeActivity trips_stats acts,
          m.1.route_id = row.route_id ∧ 0 < tripWeight dates.length m.2) := by
  constructor
  · intro feed trips_stats dates acts hne hacts hzero
    have hfilter : (mergeActivity trips_stats acts).filter
        (fun r => decide (0 < tripWeight dates.length r.2)) = [] := by
      rw [List.filter_eq_nil_iff]
      intro r hr
      simp [hzero r hr]
    simp only [getRoutesStats, if_neg hne, hacts, hfilter]
    rfl
  · intro feed trips_stats dates acts res hne hacts hres row hrow
    simp only [getRoutesStats, if_neg hne, hacts] at hres
    split at hres
    · exact absurd hres (by simp)
    next rows heq =>
      split at hres
      · exact absurd hres (by simp)
      next hrowsne =>
        obtain rfl := Option.some.inj hres
        obtain ⟨rt, hrt, rfl⟩ := List.mem_map.mp hrow
        have hrt2 : rt ∈ rows.map (fun r => r.stat.route_id) :=
          ((List.perm_insertionSort _ _).mem_iff).mp (List.mem_dedup.mp hrt)
        obtain ⟨cr, hcr, hcrid⟩ := List.mem_map.mp hrt2
        rw [convertStarts] at heq
        obtain ⟨p, hp, hfp⟩ := olist_mem _ heq cr hcr
        rcases hts : timestr_to_seconds p.1.start_time with - | s0 <;> rw [hts] at hfp
        · exact absurd hfp (by simp)
        · simp only [Option.map_some'] at hfp
          have hcr2 : cr = ⟨p.1, s0, p.2⟩ := (Option.some.inj hfp).symm
          obtain ⟨hpm, hppos⟩ := List.mem_filter.mp hp
          refine ⟨p, hpm, ?_, of_decide_eq_true hppos⟩
          show p.1.route_id = rt
          have hstat : cr.stat = p.1 := by rw [hcr2]
          rw [← hstat, hcrid]

/-- A zero-weight feed for the witness. -/
def exPF6b : PFeed :=
  ⟨[⟨"t2", "r2", "s2"⟩], [⟨"s2", "20240101", "20241231", 0, 0, 0, 0, 0, 0, 0⟩], []⟩

/-- Its trips-stats input. -/
def exStats6b : List TripStatRow :=
  [⟨"t2", "r2", "09:00:00", "10:00:00", 2, 7⟩]

/-- A feed mixing an inactive-service route r1 with an active-service
route r2. -/
def exPF6c : PFeed :=
  ⟨[⟨"t1", "r1", "s1"⟩, ⟨"t2", "r2", "s2"⟩],
    [⟨"s1", "20240101", "20241231", 0, 0, 0, 0, 0, 0, 0⟩,
      ⟨"s2", "20240101", "20241231", 1, 1, 1, 1, 1, 1, 1⟩], []⟩

/-- Its trips-stats input, one row per route. -/
def exStats6c : List TripStatRow :=
  [⟨"t1", "r1", "08:00:00", "09:00:00", 1, 5⟩,
    ⟨"t2", "r2", "09:00:00", "10:00:00", 2, 7⟩]

/-- The activity rows of `exPF6c` on 2024-01-08. -/
def exActs6c : List (TripRow × List ℤ) :=
  [(⟨"t1", "r1", "s1"⟩, [0]), (⟨"t2", "r2", "s2"⟩, [1])]

/-- The single output row of `exPF6c`: route r2 only, r1 omitted. -/
def exRow6c : RouteStatsRow :=
  ⟨"r2", some "09:00:00", some "10:00:00", 1, none, none, 2, 7⟩

/-- Witness for C6 amended: the all-zero-weight feed yields no frame, and
on the mixed feed the surviving row's route r2 indeed has a positive-weight
merged trip (while r1, all zero-weight, is omitted). -/
theorem routes_stats_zero_weight_witness :
    getRoutesStats exPF6b exStats6b ["20240109"] = none ∧
      ∃ m ∈ mergeActivity exStats6c exActs6c,
        m.1.route_id = exRow6c.route_id ∧ 0 < tripWeight 1 m.2 := by
  constructor
  · refine routes_stats_zero_weight.1 exPF6b exStats6b ["20240109"]
      [(⟨"t2", "r2", "s2"⟩, [0])] (by decide) (by with_unfolding_all rfl) ?_
    intro r hr
    have hm : mergeActivity exStats6b [(⟨"t2", "r2", "s2"⟩, [0])]
        = [(⟨"t2", "r2", "09:00:00", "10:00:00", 2, 7⟩, [0])] := by
      with_unfolding_all rfl
    rw [hm] at hr
    obtain rfl := List.mem_singleton.mp hr
    show tripWeight 1 [0] = 0
    with_unfolding_all rfl
  · have hres : getRoutesStats exPF6c exStats6c ["20240108"] = some [exRow6c] := by
      with_unfolding_all rfl
    have h := routes_stats_zero_weight.2 exPF6c exStats6c ["20240108"] exActs6c
      [exRow6c] (by decide) (by with_unfolding_all rfl) hres exRow6c (by simp)
    simpa using h

/-! ### Claim C7: overnight trip times -/

/-- C7 counterexample: on the claim's departure times, the cited
`Feed.get_trips_stats` of src/feed.py computes duration = end - start in
seconds — 61200 — and never divides by 3600 (its docstring: "duration of the
trip (seconds)"), so "duration equal to 17.0" and "reported in hours" are
false for that source. -/
theorem feed_duration_in_seconds :
    feed_trip_times ["08:00:00", "08:10:00", "25:00:00"] = some (28800, 90000, 61200) ∧
      (61200 : ℤ) ≠ 17 :=
  ⟨by with_unfolding_all rfl, by decide⟩

/-- C7 amended: for the stop-time group with departure times 08:00:00,
08:10:00, 25:00:00 in stop-sequence order, `my_agg` of src/gtfstk/trips.py
computes start_time 28800 and end_time 90000 seconds past the original
midnight (times beyond 24:00 are kept as is) and duration
(90000 - 28800) / 3600 = 17.0 hours; `Feed.get_trips_stats` of src/feed.py
computes the same end_time in seconds but keeps duration in seconds, 61200,
never converting to hours. -/
theorem overnight_trip_stats :
    my_agg_times ["08:00:00", "08:10:00", "25:00:00"] = some (28800, 90000, 17) ∧
      feed_trip_times ["08:00:00", "08:10:00", "25:00:00"]
        = some (28800, 90000, 61200) := by
  constructor <;> with_unfolding_all rfl

/-! ### Claim C8: empty-input behavior -/

/-- A feed for the C8 counterexample. -/
def exPF8c : PFeed :=
  ⟨[⟨"t9", "r9", "s9"⟩], [⟨"s9", "20240101", "20241231", 1, 1, 1, 1, 1, 1, 1⟩], []⟩

/-- C8 counterexample: with an empty dates list, `Feed.get_trips_activity`
and `Feed.get_routes_stats` of src/feed.py return Python `None` — no
DataFrame at all — not an empty result frame with the correct column
schema. -/
theorem aggregation_empty_dates_none :
    get_trips_activity exPF8c [] = none ∧
      getRoutesStats exPF8c [⟨"t9", "r9", "08:00:00", "09:00:00", 1, 1⟩] [] = none :=
  ⟨rfl, rfl⟩

/-- C8 amended: `compute_trip_activity` of src/gtfstk/trips.py returns an
empty frame on an empty dates list and a zero-row frame on empty trips,
without raising; `Feed.get_trips_activity` and `Feed.get_routes_stats` of
src/feed.py return `None` (not an empty frame) on an empty dates list; and
`Feed.get_routes_stats` on empty `trips_stats` with nonempty dates leaves
zero groups and raises a `KeyError` at `del result['foo']` (modelled
`none`) — it neither returns an empty schema-correct frame nor avoids
raising. -/
theorem empty_input_policy :
    (∀ feed : GFeed, compute_trip_activity feed [] = some []) ∧
    (∀ (feed : GFeed) (dates : List String), feed.trips = [] →
        compute_trip_activity feed dates = some []) ∧
    (∀ feed : PFeed, get_trips_activity feed [] = none) ∧
    (∀ (feed : PFeed) (trips_stats : List TripStatRow),
        getRoutesStats feed trips_stats [] = none) ∧
    (∀ (feed : PFeed) (dates : List String), dates ≠ [] →
        getRoutesStats feed [] dates = none) := by
  refine ⟨fun feed => rfl, ?_, fun feed => rfl, fun feed trips_stats => rfl, ?_⟩
  · intro feed dates htr
    simp only [compute_trip_activity, htr]
    split <;> rfl
  · intro feed dates hne
    simp only [getRoutesStats, if_neg hne]
    split <;> rfl

/-- A gtfstk feed with one trip, for the C8 witness. -/
def exGF8 : GFeed := ⟨[⟨"t1", "r1", "s1"⟩], none, none, ["20240108"]⟩

/-- A gtfstk feed with no trips. -/
def exGF8b : GFeed := ⟨[], none, none, ["20240108"]⟩

/-- A src/feed.py feed for the C8 witness. -/
def exPF8 : PFeed :=
  ⟨[⟨"t1", "r1", "s1"⟩], [⟨"s1", "20240101", "20241231", 1, 1, 1, 1, 1, 1, 1⟩], []⟩

/-- Witness for C8 amended, exercising every conjunct at concrete inputs. -/
theorem empty_input_policy_witness :
    compute_trip_activity exGF8 [] = some [] ∧
      compute_trip_activity exGF8b ["20240108"] = some [] ∧
      get_trips_activity exPF8 [] = none ∧
      getRoutesStats exPF8 [⟨"t1", "r1", "08:00:00", "09:00:00", 1, 1⟩] [] = none ∧
      getRoutesStats exPF8 [] ["20240108"] = none :=
  ⟨empty_input_policy.1 exGF8,
    empty_input_policy.2.1 exGF8b ["20240108"] rfl,
    empty_input_policy.2.2.1 exPF8,
    empty_input_policy.2.2.2.1 exPF8 [⟨"t1", "r1", "08:00:00", "09:00:00", 1, 1⟩],
    empty_input_policy.2.2.2.2 exPF8 ["20240108"] (by decide)⟩

end Gtfs
